import Mathlib

/-!
Verification of the sharding and mapping-lifecycle layer of a URL-shortener
service (`src/index.ts`).  The source file contains two concatenated copies of
the server; both implement the same hash/shorten/resolve logic, and the second
copy additionally implements DELETE.  The embedding below follows the second
copy (lines 142-373), which subsumes the first.

JavaScript strings are modelled as lists of their UTF-16 code-unit values
(`key.split("")` splits into one-code-unit pieces and `charCodeAt(0)` reads
each unit).  The per-shard Redis stores are modelled as finite partial maps
from keys to stored entries (value plus the EX expiry argument); the ordered
shard set is a function from shard index to shard state.  Randomness
(`nanoid(8)`) and backend reachability are inputs of the handler functions.
-/

namespace UrlShort

/-- A JavaScript string, as the sequence of its UTF-16 code-unit values. -/
abbrev JsStr := List Nat

/-- Embedding of the hash in `getRedisClient`:
`key.split("").reduce((acc, char) => acc + char.charCodeAt(0), 0)`. -/
def hashOfKey (key : JsStr) : Nat :=
  key.foldl (fun acc c => acc + c) 0

/-- Embedding of the index computed by `getRedisClient`:
`hash % redisClients.length`, the position of the returned client in the
ordered shard set. -/
def getRedisClientIdx (key : JsStr) (numClients : Nat) : Nat :=
  hashOfKey key % numClients

/-- A Redis client handle, as built by `createClient` at process start:
it carries the connection url derived from the environment. -/
structure RedisClient where
  url : String
deriving DecidableEq, Repr

/-- The ordered shard set: the source builds exactly three clients from the
three HOST/PORT environment pairs (`redisClients` in `src/index.ts`). -/
def mkRedisClients (u1 u2 u3 : String) : List RedisClient :=
  [⟨u1⟩, ⟨u2⟩, ⟨u3⟩]

/-- A stored mapping entry: the original url and the EX expiry argument the
server passed to the store. -/
structure Entry where
  value : String
  ex : Int
deriving DecidableEq, Repr

/-- The state of a single backing store: a partial map from keys to entries. -/
def Shard := JsStr → Option Entry

/-- Redis SET key value EX ttl: stores the entry, silently overwriting any
entry already at the key. -/
def redisSet (sh : Shard) (k : JsStr) (v : String) (t : Int) : Shard :=
  fun k2 => if k2 = k then some ⟨v, t⟩ else sh k2

/-- Redis GET key: the stored value if present, else null. -/
def redisGet (sh : Shard) (k : JsStr) : Option String :=
  (sh k).map Entry.value

/-- Redis DEL key: returns the number of keys removed (1 if the key existed,
0 otherwise) together with the updated shard state. -/
def redisDel (sh : Shard) (k : JsStr) : Nat × Shard :=
  match sh k with
  | some _ => (1, fun k2 => if k2 = k then none else sh k2)
  | none => (0, sh)

/-- The whole backing state: shard state by shard index. -/
def Store := Nat → Shard

/-- A store in which no shard holds any key. -/
def emptyStore : Store := fun _ => fun _ => none

/-- Replace the state of one shard. -/
def updateStore (st : Store) (i : Nat) (sh : Shard) : Store :=
  fun j => if j = i then sh else st j

/-- JavaScript truthiness test used by `if (!originalUrl)`: an absent field
(undefined) and the empty string are falsy. -/
def jsFalsyStr : Option String → Bool
  | none => true
  | some s => s == ""

/-- Embedding of the expression `ttl || 3600`: the default applies exactly
when `ttl` is falsy, i.e. absent (undefined) or the number 0. -/
def jsOrDefault (t : Option Int) (d : Int) : Int :=
  match t with
  | none => d
  | some v => if v = 0 then d else v

/-- The distinct response payloads produced by the handlers.
Each constructor corresponds to one literal body in the source; the two
catch sites of POST /shorten produce the same literal, hence one constructor. -/
inductive RespBody
  /-- JSON body with error "Invalid request" (both catch branches). -/
  | invalidRequestMsg
  /-- JSON body with error "URL is required". -/
  | urlRequiredMsg
  /-- JSON body carrying the short url built from the generated id. -/
  | shortUrlOf (id : JsStr)
  /-- Plain body "URL not found". -/
  | urlNotFoundMsg
  /-- JSON body with message "Short URL not found". -/
  | shortUrlNotFoundMsg
  /-- JSON body with message "Short URL deleted successfully". -/
  | deletedMsg
  /-- Redirect (Location header) to the resolved original url. -/
  | redirectTo (url : String)
deriving DecidableEq, Repr

/-- An HTTP response: status code and payload. -/
structure Response where
  status : Nat
  body : RespBody
deriving DecidableEq, Repr

/-- The JSON body of a shorten request after destructuring
`const { url: originalUrl, ttl } = body`; either field may be absent. -/
structure ShortenBody where
  url : Option String
  ttl : Option Int
deriving DecidableEq, Repr

/-- The observable outcome of one POST /shorten request: the response, the
resulting backing state, and how many SET calls were issued to the store. -/
structure ShortenOutcome where
  response : Response
  store : Store
  setAttempts : Nat

/-- Embedding of the POST /shorten handler.  `parsed` is the result of
`req.json()` (`none` when parsing throws), `shortId` the id produced by
`nanoid(8)`, `backendOk` whether the SET call to the selected shard succeeds
(when it fails, the thrown error is caught by the same catch as a parse
failure). -/
def shortenHandler (n : Nat) (st : Store) (parsed : Option ShortenBody)
    (shortId : JsStr) (backendOk : Bool) : ShortenOutcome :=
  match parsed with
  | none => ⟨⟨400, .invalidRequestMsg⟩, st, 0⟩
  | some body =>
    if jsFalsyStr body.url then
      ⟨⟨400, .urlRequiredMsg⟩, st, 0⟩
    else
      if backendOk then
        ⟨⟨200, .shortUrlOf shortId⟩,
          updateStore st (getRedisClientIdx shortId n)
            (redisSet (st (getRedisClientIdx shortId n)) shortId
              (body.url.getD "") (jsOrDefault body.ttl 3600)),
          1⟩
      else
        ⟨⟨400, .invalidRequestMsg⟩, st, 1⟩

/-- Embedding of the GET /:shortId handler: select the shard for the id,
GET, and 404 when the result is falsy (null or the empty string), else a
302 redirect to the stored url. -/
def getHandler (n : Nat) (st : Store) (shortId : JsStr) : Response :=
  match redisGet (st (getRedisClientIdx shortId n)) shortId with
  | none => ⟨404, .urlNotFoundMsg⟩
  | some u => if u == "" then ⟨404, .urlNotFoundMsg⟩ else ⟨302, .redirectTo u⟩

/-- Embedding of the DELETE /:shortId handler: select the shard for the id,
DEL, and answer 404 when the deleted count is 0, else 200. -/
def deleteHandler (n : Nat) (st : Store) (shortId : JsStr) : Response × Store :=
  match redisDel (st (getRedisClientIdx shortId n)) shortId with
  | (cnt, sh) =>
    if cnt = 0 then
      (⟨404, .shortUrlNotFoundMsg⟩, updateStore st (getRedisClientIdx shortId n) sh)
    else
      (⟨200, .deletedMsg⟩, updateStore st (getRedisClientIdx shortId n) sh)

/-! ## Helper lemmas -/

/-- Folding addition of the character codes from any accumulator is the
accumulator plus the list sum. -/
theorem foldl_add_eq_sum (acc : Nat) (l : List Nat) :
    l.foldl (fun a c => a + c) acc = acc + l.sum := by
  induction l generalizing acc with
  | nil => simp
  | cons x xs ih => simp [List.foldl_cons, ih, List.sum_cons]; ring

/-! ## Claims about the shard selector -/

/-- C4: for every key k and shard count N ≥ 1, the shard selector returns the
sum of the numeric character codes of k, reduced modulo N. -/
theorem c4_selector_is_sum_mod (k : JsStr) (n : Nat) (hn : 1 ≤ n) :
    getRedisClientIdx k n = k.sum % n := by
  unfold getRedisClientIdx hashOfKey
  rw [foldl_add_eq_sum, Nat.zero_add]

/-- C4 witness at a concrete key and shard count. -/
theorem c4_selector_is_sum_mod_witness :
    getRedisClientIdx [104, 105] 3 = [104, 105].sum % 3 :=
  c4_selector_is_sum_mod [104, 105] 3 (by decide)

/-- C6: for every key and every shard count N ≥ 1 the selector's index lies in
[0, N), and the positional lookup into the three-client shard set built at
startup is always in bounds. -/
theorem c6_selector_in_range (k : JsStr) (n : Nat) (hn : 1 ≤ n) :
    getRedisClientIdx k n < n ∧
      ∀ u1 u2 u3 : String,
        ((mkRedisClients u1 u2 u3).get?
          (getRedisClientIdx k (mkRedisClients u1 u2 u3).length)).isSome := by
  refine ⟨Nat.mod_lt _ hn, ?_⟩
  intro u1 u2 u3
  have hlen : (mkRedisClients u1 u2 u3).length = 3 := rfl
  rw [hlen]
  have h3 : getRedisClientIdx k 3 < 3 := Nat.mod_lt _ (by decide)
  set i := getRedisClientIdx k 3 with hi
  interval_cases i <;> rfl

/-- C6 witness at a concrete key and shard count. -/
theorem c6_selector_in_range_witness :
    getRedisClientIdx [104, 105] 3 < 3 ∧
      ∀ u1 u2 u3 : String,
        ((mkRedisClients u1 u2 u3).get?
          (getRedisClientIdx [104, 105] (mkRedisClients u1 u2 u3).length)).isSome :=
  c6_selector_in_range [104, 105] 3 (by decide)

/-- C9: for every shard count N ≥ 1, the selector applied to the empty key
returns index 0. -/
theorem c9_empty_key_shard_zero (n : Nat) (hn : 1 ≤ n) :
    getRedisClientIdx ([] : JsStr) n = 0 := by
  simp [getRedisClientIdx, hashOfKey]

/-- C9 witness at shard count 3. -/
theorem c9_empty_key_shard_zero_witness :
    getRedisClientIdx ([] : JsStr) 3 = 0 :=
  c9_empty_key_shard_zero 3 (by decide)

/-- C5: the shard selector is a pure function of the key and the shard count
(equal inputs give equal indices), and consequently a mapping written by
shorten at key k is found by the subsequent resolve(k) and remove(k) under the
same N: resolve redirects to the stored url and remove reports a removal. -/
theorem c5_selector_pure_and_local (n : Nat) (hn : 0 < n) (st : Store)
    (k : JsStr) (u : String) (hu : u ≠ "") (t : Option Int) :
    (∀ k1 k2 : JsStr, ∀ n1 n2 : Nat, k1 = k2 → n1 = n2 →
      getRedisClientIdx k1 n1 = getRedisClientIdx k2 n2) ∧
    getHandler n (shortenHandler n st (some ⟨some u, t⟩) k true).store k =
      ⟨302, .redirectTo u⟩ ∧
    (deleteHandler n (shortenHandler n st (some ⟨some u, t⟩) k true).store k).1 =
      ⟨200, .deletedMsg⟩ := by
  refine ⟨fun k1 k2 n1 n2 hk hn2 => by rw [hk, hn2], ?_, ?_⟩ <;>
    simp [shortenHandler, getHandler, deleteHandler, jsFalsyStr, hu,
      updateStore, redisSet, redisGet, redisDel]

/-- C5 witness: a concrete shorten followed by resolve and remove at the same
key. -/
theorem c5_selector_pure_and_local_witness :
    (∀ k1 k2 : JsStr, ∀ n1 n2 : Nat, k1 = k2 → n1 = n2 →
      getRedisClientIdx k1 n1 = getRedisClientIdx k2 n2) ∧
    getHandler 3 (shortenHandler 3 emptyStore
        (some ⟨some "https://youtube.com", some 3600⟩) [104, 105] true).store [104, 105] =
      ⟨302, .redirectTo "https://youtube.com"⟩ ∧
    (deleteHandler 3 (shortenHandler 3 emptyStore
        (some ⟨some "https://youtube.com", some 3600⟩) [104, 105] true).store [104, 105]).1 =
      ⟨200, .deletedMsg⟩ :=
  c5_selector_pure_and_local 3 (by decide) emptyStore [104, 105]
    "https://youtube.com" (by decide) (some 3600)

/-! ## Claims about the mapping lifecycle -/

/-- C1 counterexample: a shorten request with the non-positive ttl -1 stores
the entry with ex -1, not with the default 3600, because the source computes
the expiry as `ttl || 3600` and -1 is truthy. -/
theorem c1_counterexample :
    (shortenHandler 3 emptyStore (some ⟨some "https://x.com", some (-1)⟩)
        [104, 105] true).store (getRedisClientIdx [104, 105] 3) [104, 105] =
      some ⟨"https://x.com", -1⟩ ∧ ((-1 : Int) = 3600 → False) := by
  constructor
  · rfl
  · decide

/-- C1 (amended): the entry is stored with the default ttl 3600 exactly when
the ttl argument is absent or zero; any other integer ttl, positive or
negative, is stored verbatim. -/
theorem c1_ttl_stored (n : Nat) (hn : 0 < n) (st : Store) (k : JsStr)
    (u : String) (hu : u ≠ "") :
    (∀ t : Option Int, t = none ∨ t = some 0 →
      (shortenHandler n st (some ⟨some u, t⟩) k true).store
        (getRedisClientIdx k n) k = some ⟨u, 3600⟩) ∧
    (∀ v : Int, v ≠ 0 →
      (shortenHandler n st (some ⟨some u, some v⟩) k true).store
        (getRedisClientIdx k n) k = some ⟨u, v⟩) := by
  constructor
  · rintro t (rfl | rfl) <;>
      simp [shortenHandler, jsFalsyStr, hu, updateStore, redisSet, jsOrDefault]
  · intro v hv
    simp [shortenHandler, jsFalsyStr, hu, updateStore, redisSet, jsOrDefault, hv]

/-- C1 witness: a concrete shorten with no ttl stores 3600, and one with
ttl 60 stores 60. -/
theorem c1_ttl_stored_witness :
    (∀ t : Option Int, t = none ∨ t = some 0 →
      (shortenHandler 3 emptyStore (some ⟨some "https://x.com", t⟩) [104, 105] true).store
        (getRedisClientIdx [104, 105] 3) [104, 105] = some ⟨"https://x.com", 3600⟩) ∧
    (∀ v : Int, v ≠ 0 →
      (shortenHandler 3 emptyStore (some ⟨some "https://x.com", some v⟩) [104, 105] true).store
        (getRedisClientIdx [104, 105] 3) [104, 105] = some ⟨"https://x.com", v⟩) :=
  c1_ttl_stored 3 (by decide) emptyStore [104, 105] "https://x.com" (by decide)

/-- C2 counterexample: when the SET call to the backing store fails during a
shorten with a valid url, the caller receives exactly the response that a
malformed request body (a caller-input validation failure) receives: status
400 with the "Invalid request" payload — not a distinct backend error. -/
theorem c2_counterexample :
    (shortenHandler 3 emptyStore (some ⟨some "https://x.com", none⟩)
        [104, 105] false).response =
      (shortenHandler 3 emptyStore none [104, 105] true).response ∧
    (shortenHandler 3 emptyStore (some ⟨some "https://x.com", none⟩)
        [104, 105] false).response = ⟨400, .invalidRequestMsg⟩ := by
  constructor <;> rfl

/-- C2 (amended): a backing-store failure during shorten is caught and
surfaced with the same 400 "Invalid request" response as a malformed request
body, conflated with that validation-type failure (though not with
not-found); the store is left unchanged and exactly one SET call is issued,
so the operation is not retried. -/
theorem c2_backend_failure_conflated (n : Nat) (hn : 0 < n) (st : Store)
    (k : JsStr) (u : String) (hu : u ≠ "") (t : Option Int) :
    (shortenHandler n st (some ⟨some u, t⟩) k false).response =
      ⟨400, .invalidRequestMsg⟩ ∧
    (shortenHandler n st (some ⟨some u, t⟩) k false).response =
      (shortenHandler n st none k true).response ∧
    (shortenHandler n st (some ⟨some u, t⟩) k false).setAttempts = 1 ∧
    (shortenHandler n st (some ⟨some u, t⟩) k false).store = st := by
  refine ⟨?_, ?_, ?_, ?_⟩ <;> simp [shortenHandler, jsFalsyStr, hu]

/-- C2 witness: the amended statement at a concrete failing request. -/
theorem c2_backend_failure_conflated_witness :
    (shortenHandler 3 emptyStore (some ⟨some "https://x.com", none⟩) [104, 105] false).response =
      ⟨400, .invalidRequestMsg⟩ ∧
    (shortenHandler 3 emptyStore (some ⟨some "https://x.com", none⟩) [104, 105] false).response =
      (shortenHandler 3 emptyStore none [104, 105] true).response ∧
    (shortenHandler 3 emptyStore (some ⟨some "https://x.com", none⟩) [104, 105] false).setAttempts = 1 ∧
    (shortenHandler 3 emptyStore (some ⟨some "https://x.com", none⟩) [104, 105] false).store = emptyStore :=
  c2_backend_failure_conflated 3 (by decide) emptyStore [104, 105]
    "https://x.com" (by decide) none

/-- C3: a shorten request whose url field is empty or absent fails with the
400 "URL is required" validation response, issues no SET call, and leaves the
state of every shard unchanged. -/
theorem c3_missing_url_no_write (n : Nat) (st : Store) (k : JsStr) (b : Bool)
    (body : ShortenBody) (h : body.url = none ∨ body.url = some "") :
    (shortenHandler n st (some body) k b).response = ⟨400, .urlRequiredMsg⟩ ∧
    (shortenHandler n st (some body) k b).store = st ∧
    (shortenHandler n st (some body) k b).setAttempts = 0 := by
  have hb : jsFalsyStr body.url = true := by
    rcases h with h | h <;> simp [jsFalsyStr, h]
  refine ⟨?_, ?_, ?_⟩ <;> simp [shortenHandler, hb]

/-- C3 witness: a concrete shorten request with no url field. -/
theorem c3_missing_url_no_write_witness :
    (shortenHandler 3 emptyStore (some ⟨none, none⟩) [104, 105] true).response =
      ⟨400, .urlRequiredMsg⟩ ∧
    (shortenHandler 3 emptyStore (some ⟨none, none⟩) [104, 105] true).store = emptyStore ∧
    (shortenHandler 3 emptyStore (some ⟨none, none⟩) [104, 105] true).setAttempts = 0 :=
  c3_missing_url_no_write 3 emptyStore [104, 105] true ⟨none, none⟩ (Or.inl rfl)

/-- C7: remove answers 200 removed exactly when the key exists at its shard
and 404 not-found exactly when it is absent; and after a remove that reports
removed, resolve answers 404 and a second remove answers 404 not-found. -/
theorem c7_remove_semantics (n : Nat) (hn : 0 < n) (st : Store) (k : JsStr) :
    ((deleteHandler n st k).1 = ⟨200, .deletedMsg⟩ ↔
      (st (getRedisClientIdx k n) k).isSome) ∧
    ((deleteHandler n st k).1 = ⟨404, .shortUrlNotFoundMsg⟩ ↔
      st (getRedisClientIdx k n) k = none) ∧
    ((st (getRedisClientIdx k n) k).isSome →
      getHandler n (deleteHandler n st k).2 k = ⟨404, .urlNotFoundMsg⟩ ∧
      (deleteHandler n (deleteHandler n st k).2 k).1 = ⟨404, .shortUrlNotFoundMsg⟩) := by
  cases h : st (getRedisClientIdx k n) k with
  | none =>
    refine ⟨?_, ?_, ?_⟩ <;>
      simp [deleteHandler, redisDel, h, getHandler, redisGet, updateStore]
  | some e =>
    refine ⟨?_, ?_, ?_⟩ <;>
      simp [deleteHandler, redisDel, h, getHandler, redisGet, updateStore]

/-- C7 witness: a concrete store holding the key at its shard. -/
theorem c7_remove_semantics_witness :
    (((deleteHandler 3 (shortenHandler 3 emptyStore
          (some ⟨some "https://x.com", none⟩) [104, 105] true).store [104, 105]).1 =
        ⟨200, .deletedMsg⟩ ↔
      ((shortenHandler 3 emptyStore (some ⟨some "https://x.com", none⟩) [104, 105] true).store
          (getRedisClientIdx [104, 105] 3) [104, 105]).isSome) ∧
    (((deleteHandler 3 (shortenHandler 3 emptyStore
          (some ⟨some "https://x.com", none⟩) [104, 105] true).store [104, 105]).1 =
        ⟨404, .shortUrlNotFoundMsg⟩ ↔
      (shortenHandler 3 emptyStore (some ⟨some "https://x.com", none⟩) [104, 105] true).store
          (getRedisClientIdx [104, 105] 3) [104, 105] = none)) ∧
    (((shortenHandler 3 emptyStore (some ⟨some "https://x.com", none⟩) [104, 105] true).store
          (getRedisClientIdx [104, 105] 3) [104, 105]).isSome →
      getHandler 3 (deleteHandler 3 (shortenHandler 3 emptyStore
          (some ⟨some "https://x.com", none⟩) [104, 105] true).store [104, 105]).2 [104, 105] =
        ⟨404, .urlNotFoundMsg⟩ ∧
      (deleteHandler 3 (deleteHandler 3 (shortenHandler 3 emptyStore
          (some ⟨some "https://x.com", none⟩) [104, 105] true).store [104, 105]).2 [104, 105]).1 =
        ⟨404, .shortUrlNotFoundMsg⟩)) :=
  c7_remove_semantics 3 (by decide)
    (shortenHandler 3 emptyStore (some ⟨some "https://x.com", none⟩) [104, 105] true).store
    [104, 105]

/-- C8: shorten never checks for a pre-existing entry: with a key already
mapping to some entry at its shard, the response is the same success as from
any other store, and afterwards the shard maps the key to the new value with
the newly computed ttl — the prior mapping is silently overwritten. -/
theorem c8_silent_overwrite (n : Nat) (hn : 0 < n) (st : Store) (k : JsStr)
    (old : Entry) (hold : st (getRedisClientIdx k n) k = some old)
    (u : String) (hu : u ≠ "") (t : Option Int) :
    (shortenHandler n st (some ⟨some u, t⟩) k true).response =
      ⟨200, .shortUrlOf k⟩ ∧
    (∀ st2 : Store, (shortenHandler n st (some ⟨some u, t⟩) k true).response =
      (shortenHandler n st2 (some ⟨some u, t⟩) k true).response) ∧
    (shortenHandler n st (some ⟨some u, t⟩) k true).store
      (getRedisClientIdx k n) k = some ⟨u, jsOrDefault t 3600⟩ := by
  refine ⟨?_, ?_, ?_⟩ <;>
    simp [shortenHandler, jsFalsyStr, hu, updateStore, redisSet]

/-- C8 witness: overwriting a concrete occupied slot. -/
theorem c8_silent_overwrite_witness :
    (shortenHandler 3 (updateStore emptyStore (getRedisClientIdx [104, 105] 3)
        (redisSet (emptyStore (getRedisClientIdx [104, 105] 3)) [104, 105] "https://old.com" 5))
        (some ⟨some "https://new.com", some 60⟩) [104, 105] true).response =
      ⟨200, .shortUrlOf [104, 105]⟩ ∧
    (∀ st2 : Store, (shortenHandler 3 (updateStore emptyStore (getRedisClientIdx [104, 105] 3)
        (redisSet (emptyStore (getRedisClientIdx [104, 105] 3)) [104, 105] "https://old.com" 5))
        (some ⟨some "https://new.com", some 60⟩) [104, 105] true).response =
      (shortenHandler 3 st2 (some ⟨some "https://new.com", some 60⟩) [104, 105] true).response) ∧
    (shortenHandler 3 (updateStore emptyStore (getRedisClientIdx [104, 105] 3)
        (redisSet (emptyStore (getRedisClientIdx [104, 105] 3)) [104, 105] "https://old.com" 5))
        (some ⟨some "https://new.com", some 60⟩) [104, 105] true).store
      (getRedisClientIdx [104, 105] 3) [104, 105] =
        some ⟨"https://new.com", jsOrDefault (some 60) 3600⟩ :=
  c8_silent_overwrite 3 (by decide)
    (updateStore emptyStore (getRedisClientIdx [104, 105] 3)
      (redisSet (emptyStore (getRedisClientIdx [104, 105] 3)) [104, 105] "https://old.com" 5))
    [104, 105] ⟨"https://old.com", 5⟩ rfl "https://new.com" (by decide) (some 60)

/-- C10: when the backing store holds the empty string as the value for a
key, resolve answers the same 404 not-found as for an absent key: a stored
empty-string value is indistinguishable from absence at the resolve
interface. -/
theorem c10_empty_value_resolves_not_found (n : Nat) (hn : 0 < n) (st : Store)
    (k : JsStr) (t : Int) (h : st (getRedisClientIdx k n) k = some ⟨"", t⟩) :
    getHandler n st k = ⟨404, .urlNotFoundMsg⟩ ∧
    (∀ st2 : Store, st2 (getRedisClientIdx k n) k = none →
      getHandler n st k = getHandler n st2 k) := by
  constructor
  · simp [getHandler, redisGet, h]
  · intro st2 h2
    simp [getHandler, redisGet, h, h2]

/-- C10 witness: a concrete store holding the empty string at the key. -/
theorem c10_empty_value_resolves_not_found_witness :
    getHandler 3 (updateStore emptyStore (getRedisClientIdx [104, 105] 3)
        (redisSet (emptyStore (getRedisClientIdx [104, 105] 3)) [104, 105] "" 3600)) [104, 105] =
      ⟨404, .urlNotFoundMsg⟩ ∧
    (∀ st2 : Store, st2 (getRedisClientIdx [104, 105] 3) [104, 105] = none →
      getHandler 3 (updateStore emptyStore (getRedisClientIdx [104, 105] 3)
          (redisSet (emptyStore (getRedisClientIdx [104, 105] 3)) [104, 105] "" 3600)) [104, 105] =
        getHandler 3 st2 [104, 105]) :=
  c10_empty_value_resolves_not_found 3 (by decide)
    (updateStore emptyStore (getRedisClientIdx [104, 105] 3)
      (redisSet (emptyStore (getRedisClientIdx [104, 105] 3)) [104, 105] "" 3600))
    [104, 105] 3600 rfl

end UrlShort
